import Mathlib

/-!
# Verification of the Network Cell Analyzer backend (`app.py`)

A shallow embedding in Lean 4 of the stats-aggregation and time-window
query engine of the Flask backend: the time normalizer (Python
`datetime`/`pytz` calls), the sample store and presence tracker
(SQLAlchemy tables, modelled as lists in insertion order), the
aggregation loops of `get_stats`, and the query endpoints
(`/receive-data`, `/get-stats`, `/get-stats/avg-all`, `/device-stats`).

Numeric conventions: instants are minutes since the Unix epoch (`Int`,
UTC); Python `float` arithmetic is idealised as exact rational
arithmetic (`Rat`); Python's `round(x, 2)` is round-half-to-even at two
decimals; timezone objects are modelled by their two interface
functions (offset of an instant, and offset assumed by `localize` for a
naive wall time).
-/

namespace NetworkAnalyzer

/-! ## Time normalizer: proleptic Gregorian calendar

Python's `datetime` uses the proleptic Gregorian calendar.  `civilFromDays`
and `daysFromCivil` convert between a day count from 1970-01-01 and a
civil date `(year, month, day)`, using floor division throughout (Lean's
`Int` `/` is Euclidean division, which agrees with floor division for
positive divisors). -/

/-- Civil date of day-of-era `doe` (0 ≤ doe ≤ 146096) within 400-year era
`era`.  The era is split into centuries, then years of a century, then a
March-first day-of-year, following the standard Gregorian decomposition. -/
def civilCore (era doe : Int) : Int × Int × Int :=
  let c := (4 * doe + 3) / 146097
  let doc := doe - 36524 * c
  let yoc := (4 * doc + 3) / 1461
  let doy := doc - (365 * yoc + yoc / 4)
  let y := 100 * c + yoc + era * 400
  let mp := (5 * doy + 2) / 153
  let d := doy - (153 * mp + 2) / 5 + 1
  let m := if mp < 10 then mp + 3 else mp - 9
  (if m ≤ 2 then y + 1 else y, m, d)

def civilFromDays (z : Int) : Int × Int × Int :=
  civilCore ((z + 719468) / 146097) ((z + 719468) % 146097)

def daysFromCivil (y m d : Int) : Int :=
  let y2 := if m ≤ 2 then y - 1 else y
  let era := y2 / 400
  let yoe := y2 % 400
  let mp := if 2 < m then m - 3 else m + 9
  let doy := (153 * mp + 2) / 5 + d - 1
  let doe := 365 * yoe + yoe / 4 - yoe / 100 + doy
  era * 146097 + doe - 719468

theorem daysFromCivil_civilCore (era doe : Int) (h0 : 0 ≤ doe) (h1 : doe ≤ 146096) :
    daysFromCivil (civilCore era doe).1 (civilCore era doe).2.1 (civilCore era doe).2.2 =
      146097 * era + doe - 719468 := by
  unfold civilCore
  dsimp only
  set c := (4 * doe + 3) / 146097 with hc
  have hc0 : 0 ≤ c := by omega
  have hc3 : c ≤ 3 := by omega
  set doc := doe - 36524 * c with hdoc
  have hdoc0 : 0 ≤ doc := by omega
  have hdoc1 : doc ≤ 36524 := by omega
  set yoc := (4 * doc + 3) / 1461 with hyoc
  have hyoc0 : 0 ≤ yoc := by omega
  have hyoc1 : yoc ≤ 99 := by omega
  set doy := doc - (365 * yoc + yoc / 4) with hdoy
  have hdoy0 : 0 ≤ doy := by omega
  have hdoy1 : doy ≤ 365 := by omega
  set mp := (5 * doy + 2) / 153 with hmp
  have hmp0 : 0 ≤ mp := by omega
  have hmp1 : mp ≤ 11 := by omega
  unfold daysFromCivil
  dsimp only
  split_ifs
  all_goals
    have e1 : (100 * c + yoc + era * 400) / 400 = era := by omega
  all_goals
    have e2 : (100 * c + yoc + era * 400) % 400 = 100 * c + yoc := by omega
  all_goals
    have e3 : (100 * c + yoc + era * 400 + 1 - 1) / 400 = era := by omega
  all_goals
    have e4 : (100 * c + yoc + era * 400 + 1 - 1) % 400 = 100 * c + yoc := by omega
  all_goals
    have e5 : (100 * c + yoc) / 4 = 25 * c + yoc / 4 := by omega
  all_goals
    have e6 : (100 * c + yoc) / 100 = c := by omega
  all_goals
    simp only [e1, e2, e3, e4, (by omega : mp + 3 - 3 = mp), (by omega : mp - 9 + 9 = mp)]
  all_goals omega

theorem daysFromCivil_civilFromDays (z : Int) :
    daysFromCivil (civilFromDays z).1 (civilFromDays z).2.1 (civilFromDays z).2.2 = z := by
  unfold civilFromDays
  rw [daysFromCivil_civilCore ((z + 719468) / 146097) ((z + 719468) % 146097)
    (by omega) (by omega)]
  omega

/-! ## Local timestamp text

The fixed boundary format is `"%d %b %Y %I:%M %p"`.  At minute
granularity a well-formed timestamp text carries exactly these
components (day, month via its fixed abbreviation, year, 12-hour clock
hour, minute, AM/PM marker); `LocalText` is that information content. -/

structure LocalText where
  day : Int
  month : Int
  year : Int
  hour12 : Int
  minute : Int
  isPM : Bool
  deriving DecidableEq

/-- `strftime("%d %b %Y %I:%M %p")` applied to a naive local time given as
minutes since the epoch (of local wall-clock time). -/
def toLocalText (L : Int) : LocalText :=
  let md := L % 1440
  let ymd := civilFromDays (L / 1440)
  let h := md / 60
  ⟨ymd.2.2, ymd.2.1, ymd.1, if h % 12 = 0 then 12 else h % 12, md % 60, decide (12 ≤ h)⟩

/-- `strptime` of a well-formed timestamp text, as naive local minutes since
the epoch (`%I`/`%p` combine as in Python: hour 12 wraps to 0). -/
def wallMinutes (c : LocalText) : Int :=
  let h := (if c.isPM then 12 else 0) + c.hour12 % 12
  daysFromCivil c.year c.month c.day * 1440 + h * 60 + c.minute

theorem wallMinutes_toLocalText (L : Int) : wallMinutes (toLocalText L) = L := by
  unfold toLocalText wallMinutes
  dsimp only
  rw [daysFromCivil_civilFromDays]
  have hmd0 : 0 ≤ L % 1440 := by omega
  have hmd1 : L % 1440 < 1440 := by omega
  have hh : L % 1440 / 60 < 24 := by omega
  split_ifs <;> simp_all <;> omega

/-! ## Timezone model

`pytz.timezone("Asia/Beirut")` is an external collaborator; the code uses
exactly two of its capabilities, modelled as two functions:

* `off : Int → Int` — `astimezone(lebanon_tz)`: the zone's UTC offset in
  minutes as a function of the absolute instant;
* `loc : Int → Int` — `lebanon_tz.localize(naive)`: the offset the zone
  assigns to a naive local wall time (pytz resolves ambiguous/nonexistent
  times with `is_dst=False`).

A fixed-offset zone has both functions constant. -/

/-- Display formatting `instant.astimezone(lebanon_tz).strftime("%d %b %Y %I:%M %p")`
(`central_stats`): shift to local wall minutes, then render. -/
def format_local (off : Int → Int) (t : Int) : LocalText :=
  toLocalText (t + off t)

/-- Parsing `lebanon_tz.localize(strptime(text)).astimezone(pytz.utc)`
(`_to_utc` / `receive_data` / `get_stats`): naive wall minutes shifted by
the offset `localize` picks. -/
def parse_local (loc : Int → Int) (c : LocalText) : Int :=
  wallMinutes c - loc (wallMinutes c)

/-! ## Rounding and percentage formatting

Python's `round(x, 2)` rounds half to even at two decimal places; `float`
arithmetic is idealised as exact rational arithmetic.  `f"{x}%"` renders
the rounded value the way `repr` renders such a float: the shortest
decimal, so a whole number prints one `.0` digit and a trailing zero in
the second decimal place is dropped. -/

/-- Round a rational to the nearest integer, half to even. -/
def rhe (q : ℚ) : ℤ :=
  if Int.fract q < 1 / 2 then ⌊q⌋
  else if 1 / 2 < Int.fract q then ⌊q⌋ + 1
  else if ⌊q⌋ % 2 = 0 then ⌊q⌋ else ⌊q⌋ + 1

/-- Python `round(q, 2)`. -/
def round2 (q : ℚ) : ℚ := (rhe (q * 100) : ℚ) / 100

/-- Render `f"{q}%"` for a nonnegative `q` that is a two-decimal value. -/
def fmtPct (q : ℚ) : String :=
  let n := ⌊q * 100⌋
  if n % 100 = 0 then toString (n / 100) ++ ".0%"
  else if n % 10 = 0 then toString (n / 100) ++ "." ++ toString (n % 100 / 10) ++ "%"
  else toString (n / 100) ++ "." ++ (if n % 100 < 10 then "0" else "") ++ toString (n % 100) ++ "%"

/-! ## Data model

`CellData` rows (samples) and `DeviceLog` rows (presence tracker), each
list held in insertion (rowid) order.  `timestamp`/`last_seen` are UTC
minutes since the epoch; `DeviceLog.device_id` is a nullable column. -/

structure Sample where
  device_id : String
  operator : String
  signal_power : Int
  snr : ℚ
  network_type : String
  band : String
  cell_id : String
  timestamp : Int
  deriving DecidableEq

structure DeviceLog where
  ip_address : String
  device_id : Option String
  last_seen : Int
  deriving DecidableEq

structure Store where
  samples : List Sample
  logs : List DeviceLog
  deriving DecidableEq

/-! ## Dict accumulation helpers

The aggregation loop of `get_stats` builds Python dicts by
`d[k] = d.get(k, 0) + 1` and `d.setdefault(k, []).append(x)`; a Python
dict is an insertion-ordered association list. -/

def alookup {α : Type} : List (String × α) → String → Option α
  | [], _ => none
  | (k, v) :: rest, key => if k = key then some v else alookup rest key

/-- `d[k] = d.get(k, 0) + 1`. -/
def bump : List (String × Nat) → String → List (String × Nat)
  | [], k => [(k, 1)]
  | (k2, v) :: rest, k => if k2 = k then (k2, v + 1) :: rest else (k2, v) :: bump rest k

/-- `d.setdefault(k, []).append(x)`. -/
def appendAt {α : Type} : List (String × List α) → String → α → List (String × List α)
  | [], k, x => [(k, [x])]
  | (k2, xs) :: rest, k, x =>
      if k2 = k then (k2, xs ++ [x]) :: rest else (k2, xs) :: appendAt rest k x

/-- The `op_cnt` / `net_cnt` loop over `rows`, keyed by `f`. -/
def counts (rows : List Sample) (f : Sample → String) : List (String × Nat) :=
  rows.foldl (fun d r => bump d (f r)) []

/-- The `sig_net` / `snr_net` loop over `rows`, keyed by `f`, collecting `g`. -/
def grp (rows : List Sample) (f : Sample → String) (g : Sample → ℚ) :
    List (String × List ℚ) :=
  rows.foldl (fun d r => appendAt d (f r) (g r)) []

/-! ## Aggregator (`get_stats`, aggregation section) -/

structure StatsPayload where
  connectivity_per_operator : List (String × String)
  connectivity_per_network_type : List (String × String)
  avg_signal_per_network_type : List (String × ℚ)
  avg_snr_per_network_type : List (String × ℚ)
  avg_signal_device : ℚ
  deriving DecidableEq

/-- Numeric percentage per operator, `round(v/total*100, 2)` for each entry
of `op_cnt` (the value inside the `f"{...}%"` rendering). -/
def operatorPcts (rows : List Sample) : List (String × ℚ) :=
  (counts rows (fun r => r.operator)).map
    (fun kv => (kv.1, round2 ((kv.2 : ℚ) / (rows.length : ℚ) * 100)))

/-- Numeric percentage per network type. -/
def networkPcts (rows : List Sample) : List (String × ℚ) :=
  (counts rows (fun r => r.network_type)).map
    (fun kv => (kv.1, round2 ((kv.2 : ℚ) / (rows.length : ℚ) * 100)))

/-- The aggregation loop and result dict of `get_stats` (`total = len(rows)`,
the four dict comprehensions and `avg_signal_device`). -/
def aggregate (rows : List Sample) : StatsPayload :=
  let sig_device := rows.map (fun r => (r.signal_power : ℚ))
  { connectivity_per_operator := (operatorPcts rows).map (fun kv => (kv.1, fmtPct kv.2))
    connectivity_per_network_type := (networkPcts rows).map (fun kv => (kv.1, fmtPct kv.2))
    avg_signal_per_network_type :=
      (grp rows (fun r => r.network_type) (fun r => (r.signal_power : ℚ))).map
        (fun kv => (kv.1, round2 (kv.2.sum / (kv.2.length : ℚ))))
    avg_snr_per_network_type :=
      (grp rows (fun r => r.network_type) (fun r => r.snr)).map
        (fun kv => (kv.1, round2 (kv.2.sum / (kv.2.length : ℚ))))
    avg_signal_device := round2 (sig_device.sum / (sig_device.length : ℚ)) }

/-! ## Request parameters and responses

A supplied `start`/`end`/`timestamp` query value is some text: either the
empty string (falsy, so the `if not date_str` default applies), text that
`strptime` rejects (carrying the `ValueError` message that `str(e)`
produces), or a well-formed timestamp text. -/

inductive Text where
  | empty
  | malformed (msg : String)
  | valid (c : LocalText)
  deriving DecidableEq

/-- `datetime.strptime(text, "%d %b %Y %I:%M %p")`: the `ValueError` raised
on the empty string carries its fixed message. -/
def strptimeText (loc : Int → Int) : Text → Except String Int
  | .empty => .error "time data does not match format"
  | .malformed msg => .error msg
  | .valid c => .ok (parse_local loc c)

/-- The `to_utc` helper of `get_stats` (and `_to_utc`): falsy text yields
the default bound, otherwise parse. -/
def to_utc (loc : Int → Int) (p : Option Text) (default : Int) : Except String Int :=
  match p with
  | none => .ok default
  | some .empty => .ok default
  | some t => strptimeText loc t

/-- JSON body of a response (the message / error / payload alternatives the
endpoints produce). -/
inductive Body where
  | stats (p : StatsPayload)
  | avg (sig snr : ℚ)
  | message (s : String)
  | error (s : String)
  deriving DecidableEq

/-- `min(CellData.timestamp)` (`None` on an empty table). -/
def minTS : List Sample → Option Int
  | [] => none
  | r :: rest =>
      some (match minTS rest with
            | none => r.timestamp
            | some m => min r.timestamp m)

/-- `max(CellData.timestamp)`. -/
def maxTS : List Sample → Option Int
  | [] => none
  | r :: rest =>
      some (match maxTS rest with
            | none => r.timestamp
            | some m => max r.timestamp m)

/-- The shared prelude of all four stats queries: read `min`/`max`
timestamps, 404 `"No data"` when the table is empty, then resolve the two
bounds (start first, then end) and reject an inverted range.  Returns the
effective inclusive window on success, the finished `(body, code)`
response on failure. -/
def resolveWindow (loc : Int → Int) (store : List Sample) (s e : Option Text) :
    Except (Body × Nat) (Int × Int) :=
  match minTS store, maxTS store with
  | some first, some last =>
      match to_utc loc s first with
      | .error msg => .error (.error msg, 400)
      | .ok start_utc =>
          match to_utc loc e last with
          | .error msg => .error (.error msg, 400)
          | .ok end_utc =>
              if end_utc < start_utc then
                .error (.error "End date must be after start date", 400)
              else .ok (start_utc, end_utc)
  | _, _ => .error (.message "No data", 404)

/-- `CellData.timestamp.between(s, e)` (inclusive). -/
def inWindow (start_utc end_utc : Int) (r : Sample) : Bool :=
  decide (start_utc ≤ r.timestamp) && decide (r.timestamp ≤ end_utc)

/-- `filter_by(device_id=key)` where `key` may be Python `None` (matching
no row, as no stored sample has a NULL `device_id` within scope). -/
def keyMatch (key : Option String) (r : Sample) : Bool :=
  match key with
  | none => false
  | some k => r.device_id == k

/-- `GET /get-stats` (`get_stats` route). -/
def get_stats (loc : Int → Int) (store : List Sample) (device_id : Option String)
    (s e : Option Text) : Body × Nat :=
  if device_id = none ∨ device_id = some "" then (.error "device_id is required", 400)
  else
    match resolveWindow loc store s e with
    | .error resp => resp
    | .ok (start_utc, end_utc) =>
        let rows := store.filter (fun r => keyMatch device_id r && inWindow start_utc end_utc r)
        if rows.isEmpty then (.message "No data for device", 404)
        else (.stats (aggregate rows), 200)

/-- The `get_stats_inner` helper: same as the route minus the `device_id`
presence check, and its empty-result message is `"No data"`. -/
def get_stats_inner (loc : Int → Int) (store : List Sample) (device_id : Option String)
    (s e : Option Text) : Body × Nat :=
  match resolveWindow loc store s e with
  | .error resp => resp
  | .ok (start_utc, end_utc) =>
      let rows := store.filter (fun r => keyMatch device_id r && inWindow start_utc end_utc r)
      if rows.isEmpty then (.message "No data", 404)
      else (.stats (aggregate rows), 200)

/-- The `avg_all_inner` helper: window resolution as above, then SQL
`AVG` over the windowed rows of every device (`AVG` of an empty set is
`NULL`, and `round(avg or 0, 2)` turns `NULL` into `0`). -/
def avg_all_inner (loc : Int → Int) (store : List Sample) (s e : Option Text) :
    Body × Nat :=
  match resolveWindow loc store s e with
  | .error resp => resp
  | .ok (start_utc, end_utc) =>
      let rows := store.filter (inWindow start_utc end_utc)
      let avg_sig : ℚ :=
        if rows.isEmpty then 0
        else (rows.map (fun r => (r.signal_power : ℚ))).sum / (rows.length : ℚ)
      let avg_snr : ℚ :=
        if rows.isEmpty then 0
        else (rows.map (fun r => r.snr)).sum / (rows.length : ℚ)
      (.avg (round2 avg_sig) (round2 avg_snr), 200)

/-- `GET /get-stats/avg-all` (`avg_all` route): behaviourally identical to
`avg_all_inner` (the route inlines the same bound resolution and query). -/
def avg_all (loc : Int → Int) (store : List Sample) (s e : Option Text) : Body × Nat :=
  avg_all_inner loc store s e

/-! ## Ingestion (`POST /receive-data`) -/

/-- The parsed JSON body: `Option` marks presence of each key.  Values are
already of the converted types (a body whose `signal_power`/`snr` fail
`int()`/`float()` conversion is outside this model; the claims under
verification concern missing keys). -/
structure ReqBody where
  device_id : Option String
  operator : Option String
  signal_power : Option Int
  network_type : Option String
  cell_id : Option String
  timestamp : Option Text
  band : Option String
  snr : Option ℚ

/-- `KeyError` message interpolation: `f"Missing field {miss}"` where
`str(KeyError)` includes the quotes. -/
def missingMsg (k : String) : String := "Missing field '" ++ k ++ "'"

/-- `DeviceLog` upsert keyed by `ip_address`: update `last_seen` and
`device_id` of the existing row, else insert a new row. -/
def touch (logs : List DeviceLog) (ip did : String) (now : Int) : List DeviceLog :=
  match logs with
  | [] => [⟨ip, some did, now⟩]
  | l :: rest =>
      if l.ip_address == ip then ⟨l.ip_address, some did, now⟩ :: rest
      else l :: touch rest ip did now

/-- `receive_data`: reads the required keys in source order (`KeyError` on
the first missing one), parses the timestamp, then inserts the sample and
upserts the presence row in one commit.  Returns the response together
with the resulting store; every failure leaves the store unchanged. -/
def receive_data (loc : Int → Int) (st : Store) (body : ReqBody) (client_ip : String)
    (now_utc : Int) : (Body × Nat) × Store :=
  match body.device_id with
  | none => ((.error (missingMsg "device_id"), 400), st)
  | some device_id =>
  match body.operator with
  | none => ((.error (missingMsg "operator"), 400), st)
  | some op =>
  match body.signal_power with
  | none => ((.error (missingMsg "signal_power"), 400), st)
  | some signal_power =>
  match body.network_type with
  | none => ((.error (missingMsg "network_type"), 400), st)
  | some network_type =>
  match body.cell_id with
  | none => ((.error (missingMsg "cell_id"), 400), st)
  | some cell_id =>
  match body.timestamp with
  | none => ((.error (missingMsg "timestamp"), 400), st)
  | some ts_text =>
  match strptimeText loc ts_text with
  | .error msg => ((.error msg, 400), st)
  | .ok ts_utc =>
      let band := body.band.getD "N/A"
      let snr := body.snr.getD 0
      let sample : Sample := ⟨device_id, op, signal_power, snr, network_type, band, cell_id, ts_utc⟩
      ((.message "Data received", 201),
        ⟨st.samples ++ [sample], touch st.logs client_ip device_id now_utc⟩)

/-! ## Device-stats page (`GET /device-stats`) -/

/-- Rendered outcome of the page: either `device_stats.html` with a stats
dict and the requested device key, or the inline error page. -/
inductive Page where
  | render (stats : Body) (device : Option String)
  | errorHtml (html : String) (code : Nat)
  deriving DecidableEq

/-- `stats.get('error') or stats.get('message')`. -/
def bodyMsg : Body → String
  | .error s => s
  | .message s => s
  | _ => ""

/-- The tail of `device_stats_page`: unpack `(json, code)`; non-200 becomes
the `<h1>` error page, 200 renders the template with the requested key. -/
def pageOf (device_id : Option String) (resp : Body × Nat) : Page :=
  if resp.2 ≠ 200 then .errorHtml ("<h1>Error: " ++ bodyMsg resp.1 ++ "</h1>") resp.2
  else .render resp.1 device_id

/-- `CellData.query.order_by(CellData.timestamp.desc()).first()`. -/
def mostRecent : List Sample → Option Sample
  | [] => none
  | r :: rest =>
      some (match mostRecent rest with
            | none => r
            | some m => if r.timestamp < m.timestamp then m else r)

/-- `filter_by(ip_address=key)` on the presence tracker, where `key` may be
Python `None` (matching no row). -/
def ipMatch (key : Option String) (l : DeviceLog) : Bool :=
  match key with
  | none => false
  | some k => l.ip_address == k

/-- `device_stats_page`: global sentinel goes to `avg_all_inner`; a named
key is resolved through the fallback chain (literal `device_id`, then
presence-tracker `ip_address`, then the most recent sample store-wide),
404 when all three fail. -/
def device_stats_page (loc : Int → Int) (st : Store) (device_id : Option String)
    (s e : Option Text) : Page :=
  if device_id = some "global" then pageOf device_id (avg_all_inner loc st.samples s e)
  else
    match st.samples.find? (keyMatch device_id) with
    | some _ => pageOf device_id (get_stats_inner loc st.samples device_id s e)
    | none =>
        match st.logs.find? (ipMatch device_id) with
        | some device_log =>
            match device_log.device_id with
            | some d =>
                if d = "" then
                  match mostRecent st.samples with
                  | some recent =>
                      pageOf device_id (get_stats_inner loc st.samples (some recent.device_id) s e)
                  | none => .errorHtml "<h1>Error: No data available for this device</h1>" 404
                else pageOf device_id (get_stats_inner loc st.samples (some d) s e)
            | none =>
                match mostRecent st.samples with
                | some recent =>
                    pageOf device_id (get_stats_inner loc st.samples (some recent.device_id) s e)
                | none => .errorHtml "<h1>Error: No data available for this device</h1>" 404
        | none =>
            match mostRecent st.samples with
            | some recent =>
                pageOf device_id (get_stats_inner loc st.samples (some recent.device_id) s e)
            | none => .errorHtml "<h1>Error: No data available for this device</h1>" 404

/-! ## Dict characterization lemmas -/

theorem alookup_map {α β : Type} (h : α → β) (l : List (String × α)) (k : String) :
    alookup (l.map (fun kv => (kv.1, h kv.2))) k = (alookup l k).map h := by
  induction l with
  | nil => rfl
  | cons kv rest ih =>
      obtain ⟨k2, v⟩ := kv
      simp only [List.map_cons, alookup]
      split_ifs <;> simp [ih]

theorem alookup_bump_self (d : List (String × Nat)) (k : String) :
    alookup (bump d k) k = some ((alookup d k).getD 0 + 1) := by
  induction d with
  | nil => simp [bump, alookup]
  | cons kv rest ih =>
      obtain ⟨k2, v⟩ := kv
      by_cases h : k2 = k <;> simp [bump, alookup, h, ih]

theorem alookup_bump_ne (d : List (String × Nat)) {k k2 : String} (h : k2 ≠ k) :
    alookup (bump d k2) k = alookup d k := by
  induction d with
  | nil => simp [bump, alookup, h]
  | cons kv rest ih =>
      obtain ⟨k3, v⟩ := kv
      by_cases h3 : k3 = k2
      · subst h3
        simp [bump, alookup, h]
      · by_cases h4 : k3 = k <;> simp [bump, alookup, h3, h4, ih, Ne.symm h]

theorem alookup_foldl_bump (f : Sample → String) (k : String) (rows : List Sample) :
    ∀ d, alookup (rows.foldl (fun d r => bump d (f r)) d) k =
      match alookup d k with
      | some v => some (v + rows.countP (fun r => decide (f r = k)))
      | none =>
          if rows.countP (fun r => decide (f r = k)) = 0 then none
          else some (rows.countP (fun r => decide (f r = k))) := by
  induction rows with
  | nil => intro d; cases h : alookup d k <;> simp [h]
  | cons r rest ih =>
      intro d
      rw [List.foldl_cons, ih, List.countP_cons]
      by_cases hr : f r = k
      · rw [hr, alookup_bump_self]
        cases h : alookup d k <;> simp [h] <;> omega
      · rw [alookup_bump_ne d hr]
        cases h : alookup d k <;> simp [h, hr]

theorem counts_alookup (rows : List Sample) (f : Sample → String) (k : String) :
    alookup (counts rows f) k =
      if rows.countP (fun r => decide (f r = k)) = 0 then none
      else some (rows.countP (fun r => decide (f r = k))) := by
  rw [counts, alookup_foldl_bump]
  rfl

theorem alookup_appendAt_self {α : Type} (d : List (String × List α)) (k : String) (x : α) :
    alookup (appendAt d k x) k = some ((alookup d k).getD [] ++ [x]) := by
  induction d with
  | nil => simp [appendAt, alookup]
  | cons kv rest ih =>
      obtain ⟨k2, v⟩ := kv
      by_cases h : k2 = k <;> simp [appendAt, alookup, h, ih]

theorem alookup_appendAt_ne {α : Type} (d : List (String × List α)) {k k2 : String}
    (h : k2 ≠ k) (x : α) : alookup (appendAt d k2 x) k = alookup d k := by
  induction d with
  | nil => simp [appendAt, alookup, h]
  | cons kv rest ih =>
      obtain ⟨k3, v⟩ := kv
      by_cases h3 : k3 = k2
      · subst h3
        simp [appendAt, alookup, h]
      · by_cases h4 : k3 = k <;> simp [appendAt, alookup, h3, h4, ih, Ne.symm h]

theorem alookup_foldl_appendAt (f : Sample → String) (g : Sample → ℚ) (k : String)
    (rows : List Sample) :
    ∀ d, alookup (rows.foldl (fun d r => appendAt d (f r) (g r)) d) k =
      match alookup d k with
      | some xs => some (xs ++ (rows.filter (fun r => decide (f r = k))).map g)
      | none =>
          if (rows.filter (fun r => decide (f r = k))) = [] then none
          else some ((rows.filter (fun r => decide (f r = k))).map g) := by
  induction rows with
  | nil => intro d; cases h : alookup d k <;> simp [h]
  | cons r rest ih =>
      intro d
      rw [List.foldl_cons, ih, List.filter_cons]
      by_cases hr : f r = k
      · rw [hr, alookup_appendAt_self]
        cases h : alookup d k <;> simp [h]
      · rw [alookup_appendAt_ne d hr]
        cases h : alookup d k <;> simp [h, hr]

theorem grp_alookup (rows : List Sample) (f : Sample → String) (g : Sample → ℚ)
    (k : String) :
    alookup (grp rows f g) k =
      if (rows.filter (fun r => decide (f r = k))) = [] then none
      else some ((rows.filter (fun r => decide (f r = k))).map g) := by
  rw [grp, alookup_foldl_appendAt]
  rfl

/-- Sum of the counter values of a dict built by `bump`. -/
def valsum (d : List (String × Nat)) : Nat := (d.map (fun kv => kv.2)).sum

theorem valsum_bump (d : List (String × Nat)) (k : String) :
    valsum (bump d k) = valsum d + 1 := by
  induction d with
  | nil => simp [bump, valsum]
  | cons kv rest ih =>
      obtain ⟨k2, v⟩ := kv
      by_cases h : k2 = k <;> simp [bump, valsum, h] <;>
        simp [valsum] at ih <;> omega

theorem valsum_counts (rows : List Sample) (f : Sample → String) :
    valsum (counts rows f) = rows.length := by
  suffices h : ∀ d, valsum (rows.foldl (fun d r => bump d (f r)) d) = valsum d + rows.length by
    simpa [counts, valsum] using h []
  induction rows with
  | nil => intro d; simp
  | cons r rest ih =>
      intro d
      rw [List.foldl_cons, ih, valsum_bump]
      simp only [List.length_cons]
      omega

/-! ## Rounding error bounds -/

theorem abs_rhe_sub (q : ℚ) : |(rhe q : ℚ) - q| ≤ 1 / 2 := by
  have hf0 : 0 ≤ Int.fract q := Int.fract_nonneg q
  have hf1 : Int.fract q < 1 := Int.fract_lt_one q
  have hdef : Int.fract q = q - ⌊q⌋ := rfl
  unfold rhe
  split_ifs <;> push_cast <;> rw [abs_le] <;> constructor <;> linarith

theorem abs_round2_sub (q : ℚ) : |round2 q - q| ≤ 1 / 200 := by
  have h := abs_rhe_sub (q * 100)
  have : round2 q - q = ((rhe (q * 100) : ℚ) - q * 100) / 100 := by
    rw [round2]; ring
  rw [this, abs_div]
  rw [show |(100 : ℚ)| = 100 by norm_num]
  linarith

theorem abs_sum_map_sub {α : Type} (l : List α) (F G : α → ℚ) (c : ℚ)
    (h : ∀ x ∈ l, |F x - G x| ≤ c) :
    |(l.map F).sum - (l.map G).sum| ≤ l.length * c := by
  induction l with
  | nil => simp
  | cons x rest ih =>
      have hx := h x (by simp)
      have hrest := ih (fun y hy => h y (by simp [hy]))
      have tri : |(F x + (rest.map F).sum) - (G x + (rest.map G).sum)| ≤
          |F x - G x| + |(rest.map F).sum - (rest.map G).sum| := by
        calc |(F x + (rest.map F).sum) - (G x + (rest.map G).sum)|
            = |(F x - G x) + ((rest.map F).sum - (rest.map G).sum)| := by ring_nf
          _ ≤ |F x - G x| + |(rest.map F).sum - (rest.map G).sum| := abs_add _ _
      simp only [List.map_cons, List.sum_cons, List.length_cons]
      push_cast
      nlinarith [tri, hx, hrest]

/-! ## `min`/`max` timestamp lemmas -/

theorem minTS_isSome {store : List Sample} (h : store ≠ []) : ∃ a, minTS store = some a := by
  cases store with
  | nil => exact absurd rfl h
  | cons r rest => exact ⟨_, rfl⟩

theorem maxTS_isSome {store : List Sample} (h : store ≠ []) : ∃ b, maxTS store = some b := by
  cases store with
  | nil => exact absurd rfl h
  | cons r rest => exact ⟨_, rfl⟩

theorem minTS_spec {store : List Sample} {a : Int} (h : minTS store = some a) :
    (∀ r ∈ store, a ≤ r.timestamp) ∧ ∃ r ∈ store, r.timestamp = a := by
  induction store generalizing a with
  | nil => simp [minTS] at h
  | cons r rest ih =>
      rw [minTS] at h
      cases hrest : minTS rest with
      | none =>
          cases rest with
          | nil =>
              simp [minTS] at h hrest ⊢
              omega
          | cons r2 rest2 => simp [minTS] at hrest
      | some m =>
          obtain ⟨hle, hmem⟩ := ih hrest
          rw [hrest] at h
          simp only [Option.some_inj] at h
          constructor
          · intro r2 hr2
            rcases List.mem_cons.mp hr2 with h2 | h2
            · subst h2; omega
            · have := hle r2 h2; omega
          · rcases le_or_lt r.timestamp m with hcmp | hcmp
            · exact ⟨r, List.mem_cons_self _ _, by omega⟩
            · obtain ⟨r2, hr2, hr2t⟩ := hmem
              exact ⟨r2, List.mem_cons_of_mem _ hr2, by omega⟩

theorem maxTS_spec {store : List Sample} {b : Int} (h : maxTS store = some b) :
    (∀ r ∈ store, r.timestamp ≤ b) ∧ ∃ r ∈ store, r.timestamp = b := by
  induction store generalizing b with
  | nil => simp [maxTS] at h
  | cons r rest ih =>
      rw [maxTS] at h
      cases hrest : maxTS rest with
      | none =>
          cases rest with
          | nil =>
              simp [maxTS] at h hrest ⊢
              omega
          | cons r2 rest2 => simp [maxTS] at hrest
      | some m =>
          obtain ⟨hle, hmem⟩ := ih hrest
          rw [hrest] at h
          simp only [Option.some_inj] at h
          constructor
          · intro r2 hr2
            rcases List.mem_cons.mp hr2 with h2 | h2
            · subst h2; omega
            · have := hle r2 h2; omega
          · rcases le_or_lt r.timestamp m with hcmp | hcmp
            · obtain ⟨r2, hr2, hr2t⟩ := hmem
              exact ⟨r2, List.mem_cons_of_mem _ hr2, by omega⟩
            · exact ⟨r, List.mem_cons_self _ _, by omega⟩

theorem mostRecent_spec {store : List Sample} {m : Sample} (h : mostRecent store = some m) :
    m ∈ store ∧ ∀ r ∈ store, r.timestamp ≤ m.timestamp := by
  induction store generalizing m with
  | nil => simp [mostRecent] at h
  | cons r rest ih =>
      rw [mostRecent] at h
      cases hrest : mostRecent rest with
      | none =>
          rw [hrest] at h
          simp only [Option.some_inj] at h
          subst h
          have hnil : rest = [] := by
            cases rest with
            | nil => rfl
            | cons a b => simp [mostRecent] at hrest
          subst hnil
          refine ⟨List.mem_cons_self _ _, ?_⟩
          intro r2 hr2
          rcases List.mem_cons.mp hr2 with h2 | h2
          · subst h2
            exact le_refl _
          · simp at h2
      | some m2 =>
          obtain ⟨hmem, hle⟩ := ih hrest
          rw [hrest] at h
          simp only [Option.some_inj] at h
          by_cases hcmp : r.timestamp < m2.timestamp
          · rw [if_pos hcmp] at h
            subst h
            refine ⟨List.mem_cons_of_mem _ hmem, ?_⟩
            intro r2 hr2
            rcases List.mem_cons.mp hr2 with h2 | h2
            · subst h2; omega
            · exact hle r2 h2
          · rw [if_neg hcmp] at h
            subst h
            refine ⟨List.mem_cons_self _ _, ?_⟩
            intro r2 hr2
            rcases List.mem_cons.mp hr2 with h2 | h2
            · subst h2
              exact le_refl _
            · have := hle r2 h2; omega

/-! # Claims -/

/-- The two-sample scenario of the spec: two samples for device `d1`,
operators `A`/`B`, signals −80/−60, one hour apart. -/
def demoA : Sample := ⟨"d1", "A", -80, 10, "LTE", "N/A", "c1", 28401600⟩

def demoB : Sample := ⟨"d1", "B", -60, 20, "5G", "N/A", "c2", 28401660⟩

/-- **C4.** For every instant `t` at minute granularity, formatting `t` into
the fixed local display format (`%d %b %Y %I:%M %p` in the fixed source
timezone) and parsing that text back yields `t` again, modulo the fixed
timezone's offset rules: whenever `localize` assigns the formatted wall
time the same offset the zone gave the instant (which is always the case
for a fixed-offset zone, and fails only at the zone's ambiguous or skipped
wall times), `parse_local (format_local t) = t`. -/
theorem parse_format_roundtrip (off loc : Int → Int) (t : Int)
    (h : loc (t + off t) = off t) :
    parse_local loc (format_local off t) = t := by
  unfold parse_local format_local
  rw [wallMinutes_toLocalText, h]
  omega

theorem parse_format_roundtrip_witness :
    (fun _ : Int => 120) (28401600 + (fun _ : Int => 120) 28401600) =
        (fun _ : Int => 120) 28401600 ∧
      parse_local (fun _ => 120) (format_local (fun _ => 120) 28401600) = 28401600 :=
  ⟨rfl, parse_format_roundtrip (fun _ => 120) (fun _ => 120) 28401600 rfl⟩

/-- **C10.** In `get_stats`, store emptiness is checked before the
`start`/`end` texts are parsed or the range validated: with the sample
table empty and a `device_id` supplied, the response is 404 `"No data"`
for every choice of `start`/`end` — malformed or inverted included — so
no 400 ever arises from an empty store. -/
theorem get_stats_empty_store_404 (loc : Int → Int) (device_id : String)
    (s e : Option Text) (hdev : device_id ≠ "") :
    get_stats loc [] (some device_id) s e = (.message "No data", 404) := by
  unfold get_stats resolveWindow minTS maxTS
  simp [hdev]

theorem get_stats_empty_store_404_witness :
    ("d1" : String) ≠ "" ∧
      get_stats (fun _ => 120) [] (some "d1") (some (.malformed "time data 'garbage' does not match format"))
        (some .empty) = (.message "No data", 404) :=
  ⟨by decide, get_stats_empty_store_404 (fun _ => 120) "d1" _ _ (by decide)⟩

/-- **C5.** For every non-empty store, a stats query with neither `start`
nor `end` supplied resolves its effective window to exactly
`[minimum stored timestamp, maximum stored timestamp]`: the resolved
window bounds every stored timestamp and both bounds are attained. -/
theorem default_window_full_range (loc : Int → Int) (store : List Sample)
    (h : store ≠ []) :
    ∃ a b, resolveWindow loc store none none = .ok (a, b) ∧
      (∀ r ∈ store, a ≤ r.timestamp ∧ r.timestamp ≤ b) ∧
      (∃ r ∈ store, r.timestamp = a) ∧ (∃ r ∈ store, r.timestamp = b) := by
  obtain ⟨a, ha⟩ := minTS_isSome h
  obtain ⟨b, hb⟩ := maxTS_isSome h
  obtain ⟨hale, r0, hr0, hr0a⟩ := minTS_spec ha
  obtain ⟨hble, r1, hr1, hr1b⟩ := maxTS_spec hb
  have hab : ¬(b < a) := by
    have h1 := hale r1 hr1
    omega
  refine ⟨a, b, ?_, ?_, ⟨r0, hr0, hr0a⟩, ⟨r1, hr1, hr1b⟩⟩
  · unfold resolveWindow
    rw [ha, hb]
    simp [to_utc, hab]
  · intro r hr
    exact ⟨hale r hr, hble r hr⟩

theorem default_window_full_range_witness :
    ([demoA, demoB] : List Sample) ≠ [] ∧
      ∃ a b, resolveWindow (fun _ => 120) [demoA, demoB] none none = .ok (a, b) ∧
        (∀ r ∈ [demoA, demoB], a ≤ r.timestamp ∧ r.timestamp ≤ b) ∧
        (∃ r ∈ [demoA, demoB], r.timestamp = a) ∧ (∃ r ∈ [demoA, demoB], r.timestamp = b) :=
  ⟨by decide, default_window_full_range (fun _ => 120) [demoA, demoB] (by decide)⟩

/-- **C6.** On a non-empty store with parseable (or defaulted) bounds, the
per-device stats query and the cross-device averages query fail with
400 `"End date must be after start date"` exactly when the resolved end
instant is strictly before the resolved start instant; `end = start`
passes the check. -/
theorem invalid_range_iff (loc : Int → Int) (store : List Sample) (d : String)
    (s e : Option Text) (first last S E : Int)
    (hmin : minTS store = some first) (hmax : maxTS store = some last)
    (hs : to_utc loc s first = .ok S) (he : to_utc loc e last = .ok E)
    (hd : d ≠ "") :
    (get_stats loc store (some d) s e =
        (.error "End date must be after start date", 400) ↔ E < S) ∧
      (avg_all loc store s e =
        (.error "End date must be after start date", 400) ↔ E < S) := by
  have hrw : resolveWindow loc store s e =
      if E < S then .error (.error "End date must be after start date", 400)
      else .ok (S, E) := by
    unfold resolveWindow
    rw [hmin, hmax]
    dsimp only
    rw [hs, he]
  by_cases hlt : E < S
  · refine ⟨⟨fun _ => hlt, fun _ => ?_⟩, ⟨fun _ => hlt, fun _ => ?_⟩⟩
    · unfold get_stats
      simp [hd, hrw, hlt]
    · unfold avg_all avg_all_inner
      simp [hrw, hlt]
  · refine ⟨⟨fun h2 => ?_, fun h2 => absurd h2 hlt⟩,
      ⟨fun h2 => ?_, fun h2 => absurd h2 hlt⟩⟩
    · unfold get_stats at h2
      simp [hd, hrw, hlt] at h2
      split at h2 <;> simp_all
    · unfold avg_all avg_all_inner at h2
      simp [hrw, hlt] at h2

theorem invalid_range_iff_witness :
    minTS [demoA, demoB] = some 28401600 ∧ maxTS [demoA, demoB] = some 28401660 ∧
      to_utc (fun _ => 0) (some (.valid ⟨1, 1, 1971, 12, 0, false⟩)) 28401600 = .ok 525600 ∧
      to_utc (fun _ => 0) (some .empty) 28401660 = .ok 28401660 ∧ ("d1" : String) ≠ "" ∧
      ((get_stats (fun _ => 0) [demoA, demoB] (some "d1")
          (some (.valid ⟨1, 1, 1971, 12, 0, false⟩)) (some .empty) =
            (.error "End date must be after start date", 400) ↔ (28401660 : Int) < 525600) ∧
        (avg_all (fun _ => 0) [demoA, demoB]
          (some (.valid ⟨1, 1, 1971, 12, 0, false⟩)) (some .empty) =
            (.error "End date must be after start date", 400) ↔ (28401660 : Int) < 525600)) :=
  ⟨by decide, by decide, rfl, rfl, by decide,
    invalid_range_iff (fun _ => 0) [demoA, demoB] "d1"
      (some (.valid ⟨1, 1, 1971, 12, 0, false⟩)) (some .empty)
      28401600 28401660 525600 28401660
      (by decide) (by decide) rfl rfl (by decide)⟩

/-! ### Aggregate field characterizations (shared by the aggregation claims) -/

theorem alookup_fmt_map (l : List (String × ℚ)) (k : String) :
    alookup (l.map (fun kv => (kv.1, fmtPct kv.2))) k = (alookup l k).map fmtPct :=
  alookup_map fmtPct l k

theorem alookup_pcts_map (l : List (String × Nat)) (T : ℚ) (k : String) :
    alookup (l.map (fun kv => (kv.1, round2 ((kv.2 : ℚ) / T * 100)))) k =
      (alookup l k).map (fun v : Nat => round2 ((v : ℚ) / T * 100)) :=
  alookup_map (fun v : Nat => round2 ((v : ℚ) / T * 100)) l k

theorem alookup_avg_map (l : List (String × List ℚ)) (k : String) :
    alookup (l.map (fun kv => (kv.1, round2 (kv.2.sum / (kv.2.length : ℚ))))) k =
      (alookup l k).map (fun xs : List ℚ => round2 (xs.sum / (xs.length : ℚ))) :=
  alookup_map (fun xs : List ℚ => round2 (xs.sum / (xs.length : ℚ))) l k

theorem aggregate_cpo (rows : List Sample) (k : String) :
    alookup (aggregate rows).connectivity_per_operator k =
      if rows.countP (fun r => decide (r.operator = k)) = 0 then none
      else some (fmtPct (round2 ((rows.countP (fun r => decide (r.operator = k)) : ℚ) /
        (rows.length : ℚ) * 100))) := by
  show alookup ((operatorPcts rows).map (fun kv => (kv.1, fmtPct kv.2))) k = _
  rw [alookup_fmt_map, operatorPcts, alookup_pcts_map, counts_alookup]
  by_cases h : rows.countP (fun r => decide (r.operator = k)) = 0 <;> simp [h]

theorem aggregate_cpnt (rows : List Sample) (k : String) :
    alookup (aggregate rows).connectivity_per_network_type k =
      if rows.countP (fun r => decide (r.network_type = k)) = 0 then none
      else some (fmtPct (round2 ((rows.countP (fun r => decide (r.network_type = k)) : ℚ) /
        (rows.length : ℚ) * 100))) := by
  show alookup ((networkPcts rows).map (fun kv => (kv.1, fmtPct kv.2))) k = _
  rw [alookup_fmt_map, networkPcts, alookup_pcts_map, counts_alookup]
  by_cases h : rows.countP (fun r => decide (r.network_type = k)) = 0 <;> simp [h]

theorem aggregate_avg_sig_nt (rows : List Sample) (k : String) :
    alookup (aggregate rows).avg_signal_per_network_type k =
      if (rows.filter (fun r => decide (r.network_type = k))) = [] then none
      else some (round2
        (((rows.filter (fun r => decide (r.network_type = k))).map
            (fun r => (r.signal_power : ℚ))).sum /
          (((rows.filter (fun r => decide (r.network_type = k))).map
            (fun r => (r.signal_power : ℚ))).length : ℚ))) := by
  show alookup ((grp rows (fun r => r.network_type) (fun r => (r.signal_power : ℚ))).map
    (fun kv => (kv.1, round2 (kv.2.sum / (kv.2.length : ℚ))))) k = _
  rw [alookup_avg_map, grp_alookup]
  by_cases h : (rows.filter (fun r => decide (r.network_type = k))) = [] <;> simp [h]

theorem aggregate_avg_snr_nt (rows : List Sample) (k : String) :
    alookup (aggregate rows).avg_snr_per_network_type k =
      if (rows.filter (fun r => decide (r.network_type = k))) = [] then none
      else some (round2
        (((rows.filter (fun r => decide (r.network_type = k))).map
            (fun r => r.snr)).sum /
          (((rows.filter (fun r => decide (r.network_type = k))).map
            (fun r => r.snr)).length : ℚ))) := by
  show alookup ((grp rows (fun r => r.network_type) (fun r => r.snr)).map
    (fun kv => (kv.1, round2 (kv.2.sum / (kv.2.length : ℚ))))) k = _
  rw [alookup_avg_map, grp_alookup]
  by_cases h : (rows.filter (fun r => decide (r.network_type = k))) = [] <;> simp [h]

theorem aggregate_avg_sig_dev (rows : List Sample) :
    (aggregate rows).avg_signal_device =
      round2 ((rows.map (fun r => (r.signal_power : ℚ))).sum / (rows.length : ℚ)) := by
  show round2 ((rows.map (fun r => (r.signal_power : ℚ))).sum /
    ((rows.map (fun r => (r.signal_power : ℚ))).length : ℚ)) = _
  rw [List.length_map]

/-- **C1.** For every non-empty sample sequence, the stats payload maps each
observed operator to `(count with that operator) / total × 100` rounded to
two decimals with a trailing `%`, each observed network type analogously,
and `avg_signal_device` to the mean of `signal_power` over the whole
sequence rounded to two decimals; in particular the two-sample scenario
(operator `A` at −80, operator `B` at −60, one device, full range) yields
`connectivity_per_operator = {"A": "50.0%", "B": "50.0%"}` and
`avg_signal_device = -70.0`. -/
theorem aggregate_matches_spec :
    (∀ rows : List Sample, rows ≠ [] →
      (∀ k, rows.countP (fun r => decide (r.operator = k)) ≠ 0 →
        alookup (aggregate rows).connectivity_per_operator k =
          some (fmtPct (round2 ((rows.countP (fun r => decide (r.operator = k)) : ℚ) /
            (rows.length : ℚ) * 100)))) ∧
      (∀ k, rows.countP (fun r => decide (r.network_type = k)) ≠ 0 →
        alookup (aggregate rows).connectivity_per_network_type k =
          some (fmtPct (round2 ((rows.countP (fun r => decide (r.network_type = k)) : ℚ) /
            (rows.length : ℚ) * 100)))) ∧
      (aggregate rows).avg_signal_device =
        round2 ((rows.map (fun r => (r.signal_power : ℚ))).sum / (rows.length : ℚ)))
    ∧ (∀ loc, ∃ p, get_stats loc [demoA, demoB] (some "d1") none none = (.stats p, 200) ∧
        p.connectivity_per_operator = [("A", "50.0%"), ("B", "50.0%")] ∧
        p.avg_signal_device = -70) := by
  constructor
  · intro rows _
    refine ⟨?_, ?_, aggregate_avg_sig_dev rows⟩
    · intro k hk
      rw [aggregate_cpo, if_neg hk]
    · intro k hk
      rw [aggregate_cpnt, if_neg hk]
  · intro loc
    refine ⟨aggregate [demoA, demoB], rfl, ?_, ?_⟩
    · with_unfolding_all decide
    · with_unfolding_all decide

theorem aggregate_matches_spec_witness :
    ([demoA, demoB] : List Sample) ≠ [] ∧
      ([demoA, demoB] : List Sample).countP (fun r => decide (r.operator = "A")) ≠ 0 ∧
      alookup (aggregate [demoA, demoB]).connectivity_per_operator "A" =
        some (fmtPct (round2 ((([demoA, demoB] : List Sample).countP
          (fun r => decide (r.operator = "A")) : ℚ) /
            (([demoA, demoB] : List Sample).length : ℚ) * 100))) := by
  refine ⟨?_, ?_, ?_⟩
  · decide
  · decide
  · exact (aggregate_matches_spec.1 [demoA, demoB] (by decide)).1 "A" (by decide)

theorem valsum_cons (kv : String × Nat) (rest : List (String × Nat)) :
    valsum (kv :: rest) = kv.2 + valsum rest := by
  simp [valsum]

theorem sum_map_div_mul (l : List (String × Nat)) (T : ℚ) :
    (l.map (fun kv => (kv.2 : ℚ) / T * 100)).sum = (valsum l : ℚ) / T * 100 := by
  induction l with
  | nil => simp [valsum]
  | cons kv rest ih =>
      rw [List.map_cons, List.sum_cons, ih, valsum_cons]
      push_cast
      ring

/-- **C2.** For every non-empty sample sequence (with at most 20 distinct
operators, the reading of "reasonable group counts"), the numeric
percentage values of `connectivity_per_operator` sum to 100 within ±0.1:
each rounded share differs from the exact share by at most 0.005 and the
exact shares sum to exactly 100. -/
theorem operator_pct_sum_approx_100 (rows : List Sample) (h : rows ≠ [])
    (hg : (operatorPcts rows).length ≤ 20) :
    |((operatorPcts rows).map (fun kv => kv.2)).sum - 100| ≤ 1 / 10 := by
  have hT : (rows.length : ℚ) ≠ 0 := by
    have h2 : rows.length ≠ 0 := by cases rows <;> simp_all
    exact_mod_cast h2
  have hmm : (operatorPcts rows).map (fun kv => kv.2) =
      (counts rows (fun r => r.operator)).map
        (fun kv => round2 ((kv.2 : ℚ) / (rows.length : ℚ) * 100)) := by
    rw [operatorPcts, List.map_map]
    rfl
  have hlen : (counts rows (fun r => r.operator)).length = (operatorPcts rows).length := by
    rw [operatorPcts, List.length_map]
  have herr := abs_sum_map_sub (counts rows (fun r => r.operator))
    (fun kv => round2 ((kv.2 : ℚ) / (rows.length : ℚ) * 100))
    (fun kv => (kv.2 : ℚ) / (rows.length : ℚ) * 100) (1 / 200)
    (fun x _ => abs_round2_sub _)
  have hsum : ((counts rows (fun r => r.operator)).map
      (fun kv => (kv.2 : ℚ) / (rows.length : ℚ) * 100)).sum = 100 := by
    rw [sum_map_div_mul, valsum_counts]
    field_simp
  rw [hsum] at herr
  have hlen20 : ((counts rows (fun r => r.operator)).length : ℚ) ≤ 20 := by
    rw [hlen]
    exact_mod_cast hg
  rw [hmm]
  calc |((counts rows (fun r => r.operator)).map
        (fun kv => round2 ((kv.2 : ℚ) / (rows.length : ℚ) * 100))).sum - 100|
      ≤ (counts rows (fun r => r.operator)).length * (1 / 200) := herr
    _ ≤ 20 * (1 / 200) := by nlinarith
    _ = 1 / 10 := by norm_num

theorem operator_pct_sum_approx_100_witness :
    ([demoA, demoB] : List Sample) ≠ [] ∧ (operatorPcts [demoA, demoB]).length ≤ 20 ∧
      |((operatorPcts [demoA, demoB]).map (fun kv => kv.2)).sum - 100| ≤ 1 / 10 := by
  refine ⟨?_, ?_, ?_⟩
  · decide
  · with_unfolding_all decide
  · exact operator_pct_sum_approx_100 [demoA, demoB] (by decide) (by with_unfolding_all decide)

/-- **C3.** The aggregation is invariant under permutation of its input:
for every permutation of a non-empty sample sequence, all four group-by
mappings agree as key-value maps and `avg_signal_device` is unchanged. -/
theorem aggregate_perm_invariant (rows rows2 : List Sample) (hp : List.Perm rows rows2)
    (_hne : rows ≠ []) :
    (∀ k, alookup (aggregate rows).connectivity_per_operator k =
        alookup (aggregate rows2).connectivity_per_operator k) ∧
    (∀ k, alookup (aggregate rows).connectivity_per_network_type k =
        alookup (aggregate rows2).connectivity_per_network_type k) ∧
    (∀ k, alookup (aggregate rows).avg_signal_per_network_type k =
        alookup (aggregate rows2).avg_signal_per_network_type k) ∧
    (∀ k, alookup (aggregate rows).avg_snr_per_network_type k =
        alookup (aggregate rows2).avg_snr_per_network_type k) ∧
    (aggregate rows).avg_signal_device = (aggregate rows2).avg_signal_device := by
  have hlen : rows.length = rows2.length := hp.length_eq
  refine ⟨?_, ?_, ?_, ?_, ?_⟩
  · intro k
    rw [aggregate_cpo, aggregate_cpo, hp.countP_eq, hlen]
  · intro k
    rw [aggregate_cpnt, aggregate_cpnt, hp.countP_eq, hlen]
  · intro k
    rw [aggregate_avg_sig_nt, aggregate_avg_sig_nt]
    have hf := hp.filter (fun r => decide (r.network_type = k))
    have hm := hf.map (fun r => (r.signal_power : ℚ))
    by_cases hnil : rows.filter (fun r => decide (r.network_type = k)) = []
    · have hnil2 : rows2.filter (fun r => decide (r.network_type = k)) = [] := by
        have h2 := hf.length_eq
        rw [hnil] at h2
        exact List.length_eq_zero.mp h2.symm
      rw [if_pos hnil, if_pos hnil2]
    · have hnil2 : ¬rows2.filter (fun r => decide (r.network_type = k)) = [] := by
        intro h2
        apply hnil
        have h3 := hf.length_eq
        rw [h2] at h3
        exact List.length_eq_zero.mp h3
      rw [if_neg hnil, if_neg hnil2, hm.sum_eq, hm.length_eq]
  · intro k
    rw [aggregate_avg_snr_nt, aggregate_avg_snr_nt]
    have hf := hp.filter (fun r => decide (r.network_type = k))
    have hm := hf.map (fun r => r.snr)
    by_cases hnil : rows.filter (fun r => decide (r.network_type = k)) = []
    · have hnil2 : rows2.filter (fun r => decide (r.network_type = k)) = [] := by
        have h2 := hf.length_eq
        rw [hnil] at h2
        exact List.length_eq_zero.mp h2.symm
      rw [if_pos hnil, if_pos hnil2]
    · have hnil2 : ¬rows2.filter (fun r => decide (r.network_type = k)) = [] := by
        intro h2
        apply hnil
        have h3 := hf.length_eq
        rw [h2] at h3
        exact List.length_eq_zero.mp h3
      rw [if_neg hnil, if_neg hnil2, hm.sum_eq, hm.length_eq]
  · rw [aggregate_avg_sig_dev, aggregate_avg_sig_dev,
      (hp.map (fun r => (r.signal_power : ℚ))).sum_eq, hlen]

theorem aggregate_perm_invariant_witness :
    List.Perm ([demoA, demoB] : List Sample) [demoB, demoA] ∧
      ([demoA, demoB] : List Sample) ≠ [] ∧
      (aggregate [demoA, demoB]).avg_signal_device =
        (aggregate [demoB, demoA]).avg_signal_device := by
  refine ⟨List.Perm.swap demoB demoA [], by decide, ?_⟩
  exact (aggregate_perm_invariant [demoA, demoB] [demoB, demoA]
    (List.Perm.swap demoB demoA []) (by decide)).2.2.2.2

/-- A sample whose timestamp lies outside the tiny window used in the
`avg_all` empty-window counterexample. -/
def lateSample : Sample := ⟨"d1", "A", -80, 10, "LTE", "N/A", "c1", 100000⟩

def t0Text : Text := .valid ⟨1, 1, 1970, 12, 0, false⟩

def t30Text : Text := .valid ⟨1, 1, 1970, 12, 30, false⟩

/-- **C7 (counterexample).** The claim "every stats query whose resolved
window contains no samples fails with 404, for both the per-device stats
query and the cross-device averages query" is false for the averages
query: on a one-sample store with a resolved window `[0, 30]` containing
no samples, `avg_all` answers 200 with zero averages, not 404. -/
theorem avg_all_empty_window_200 :
    ([lateSample] : List Sample).filter (inWindow 0 30) = [] ∧
      resolveWindow (fun _ => 0) [lateSample] (some t0Text) (some t30Text) = .ok (0, 30) ∧
      avg_all (fun _ => 0) [lateSample] (some t0Text) (some t30Text) = (.avg 0 0, 200) := by
  refine ⟨by decide, rfl, ?_⟩
  with_unfolding_all decide

/-- **C7 (amended).** An empty store yields 404 `"No data"` for both the
per-device stats query and the cross-device averages query; a non-empty
store whose resolved window holds no samples of the queried device yields
404 `"No data for device"` for the per-device query; but the averages
query does not 404 on an empty window — it answers 200 with both
averages equal to 0 (SQL `AVG` of no rows is `NULL`, and `avg or 0`
turns that into 0). -/
theorem no_data_404_variants :
    (∀ (loc : Int → Int) (s e : Option Text) (d : String), d ≠ "" →
        get_stats loc [] (some d) s e = (.message "No data", 404) ∧
        avg_all loc [] s e = (.message "No data", 404)) ∧
    (∀ (loc : Int → Int) (store : List Sample) (d : String) (s e : Option Text) (S E : Int),
        d ≠ "" →
        resolveWindow loc store s e = .ok (S, E) →
        store.filter (fun r => keyMatch (some d) r && inWindow S E r) = [] →
        get_stats loc store (some d) s e = (.message "No data for device", 404)) ∧
    (∀ (loc : Int → Int) (store : List Sample) (s e : Option Text) (S E : Int),
        resolveWindow loc store s e = .ok (S, E) →
        store.filter (inWindow S E) = [] →
        avg_all loc store s e = (.avg 0 0, 200)) := by
  have hr0 : round2 0 = 0 := by with_unfolding_all decide
  refine ⟨?_, ?_, ?_⟩
  · intro loc s e d hd
    constructor
    · unfold get_stats resolveWindow minTS maxTS
      simp [hd]
    · unfold avg_all avg_all_inner resolveWindow minTS maxTS
      simp
  · intro loc store d s e S E hd hrw hfilter
    unfold get_stats
    simp only [hrw]
    simp [hd, hfilter]
  · intro loc store s e S E hrw hfilter
    unfold avg_all avg_all_inner
    simp [hrw, hfilter, hr0]

theorem no_data_404_variants_witness :
    ("d1" : String) ≠ "" ∧
      get_stats (fun _ => 0) [] (some "d1") none none = (.message "No data", 404) ∧
      avg_all (fun _ => 0) [] none none = (.message "No data", 404) := by
  refine ⟨by decide, ?_, ?_⟩
  · exact (no_data_404_variants.1 (fun _ => 0) none none "d1" (by decide)).1
  · exact (no_data_404_variants.1 (fun _ => 0) none none "d1" (by decide)).2

/-- **C8.** For a named-device request to the device-stats page (key not
the global sentinel), the queried identifier is resolved by the ordered
fallback chain: (a) any sample with `device_id = key` makes the key
itself be queried; (b) else a presence row with `ip_address = key`
carrying a truthy device id makes that id be queried; (c) else the
device id of the most recently timestamped sample — characterised as a
stored sample bounding every stored timestamp — is queried; and when
none of these yields an identifier the page fails with the 404 error
page. -/
theorem device_key_fallback (loc : Int → Int) (st : Store) (k : String)
    (s e : Option Text) (hk : k ≠ "global") :
    (st.samples.find? (keyMatch (some k)) ≠ none →
        device_stats_page loc st (some k) s e =
          pageOf (some k) (get_stats_inner loc st.samples (some k) s e)) ∧
    (∀ l d, st.samples.find? (keyMatch (some k)) = none →
        st.logs.find? (ipMatch (some k)) = some l → l.device_id = some d → d ≠ "" →
        device_stats_page loc st (some k) s e =
          pageOf (some k) (get_stats_inner loc st.samples (some d) s e)) ∧
    (∀ m, st.samples.find? (keyMatch (some k)) = none →
        (st.logs.find? (ipMatch (some k)) = none ∨
          ∃ l, st.logs.find? (ipMatch (some k)) = some l ∧
            (l.device_id = none ∨ l.device_id = some "")) →
        mostRecent st.samples = some m →
        device_stats_page loc st (some k) s e =
          pageOf (some k) (get_stats_inner loc st.samples (some m.device_id) s e)) ∧
    (∀ m, mostRecent st.samples = some m →
        m ∈ st.samples ∧ ∀ r ∈ st.samples, r.timestamp ≤ m.timestamp) ∧
    (st.samples = [] →
        (st.logs.find? (ipMatch (some k)) = none ∨
          ∃ l, st.logs.find? (ipMatch (some k)) = some l ∧
            (l.device_id = none ∨ l.device_id = some "")) →
        device_stats_page loc st (some k) s e =
          .errorHtml "<h1>Error: No data available for this device</h1>" 404) := by
  refine ⟨?_, ?_, ?_, fun m hm => mostRecent_spec hm, ?_⟩
  · intro hfind
    obtain ⟨r, hr⟩ := Option.ne_none_iff_exists'.mp hfind
    unfold device_stats_page
    simp [hk, hr]
  · intro l d hfind hlog hdev hd
    unfold device_stats_page
    simp [hk, hfind, hlog, hdev, hd]
  · intro m hfind hlog hmr
    unfold device_stats_page
    rcases hlog with hnone | ⟨l, hl, hfalsy⟩
    · simp [hk, hfind, hnone, hmr]
    · rcases hfalsy with h1 | h1 <;> simp [hk, hfind, hl, h1, hmr]
  · intro hnil hlog
    have hfind : st.samples.find? (keyMatch (some k)) = none := by simp [hnil]
    have hmr : mostRecent st.samples = none := by rw [hnil]; rfl
    unfold device_stats_page
    rcases hlog with hnone | ⟨l, hl, hfalsy⟩
    · simp [hk, hfind, hnone, hmr]
    · rcases hfalsy with h1 | h1 <;> simp [hk, hfind, hl, h1, hmr]

theorem device_key_fallback_witness :
    ("d1" : String) ≠ "global" ∧
      (Store.mk [demoA] []).samples.find? (keyMatch (some "d1")) ≠ none ∧
      device_stats_page (fun _ => 0) ⟨[demoA], []⟩ (some "d1") none none =
        pageOf (some "d1") (get_stats_inner (fun _ => 0) [demoA] (some "d1") none none) := by
  refine ⟨by decide, by decide, ?_⟩
  exact (device_key_fallback (fun _ => 0) ⟨[demoA], []⟩ "d1" none none (by decide)).1
    (by decide)

/-- `key in body` for the six required ingestion keys. -/
def missingField (b : ReqBody) (k : String) : Bool :=
  (k == "device_id" && b.device_id.isNone) || (k == "operator" && b.operator.isNone) ||
  (k == "signal_power" && b.signal_power.isNone) ||
  (k == "network_type" && b.network_type.isNone) ||
  (k == "cell_id" && b.cell_id.isNone) || (k == "timestamp" && b.timestamp.isNone)

/-- **C9.** Ingestion is all-or-nothing for missing keys: a request body
lacking any required key is answered 400 with an error naming a key that
is indeed missing, and the store — both the sample table and the
presence tracker — is exactly the store before the request. -/
theorem ingestion_all_or_nothing (loc : Int → Int) (st : Store) (body : ReqBody)
    (ip : String) (now : Int)
    (h : body.device_id = none ∨ body.operator = none ∨ body.signal_power = none ∨
        body.network_type = none ∨ body.cell_id = none ∨ body.timestamp = none) :
    ∃ k, missingField body k = true ∧
      receive_data loc st body ip now = ((.error (missingMsg k), 400), st) := by
  cases hdev : body.device_id with
  | none => exact ⟨"device_id", by simp [missingField, hdev], by simp [receive_data, hdev]⟩
  | some v1 =>
  cases hop : body.operator with
  | none => exact ⟨"operator", by simp [missingField, hop], by simp [receive_data, hdev, hop]⟩
  | some v2 =>
  cases hsp : body.signal_power with
  | none =>
      exact ⟨"signal_power", by simp [missingField, hsp],
        by simp [receive_data, hdev, hop, hsp]⟩
  | some v3 =>
  cases hnt : body.network_type with
  | none =>
      exact ⟨"network_type", by simp [missingField, hnt],
        by simp [receive_data, hdev, hop, hsp, hnt]⟩
  | some v4 =>
  cases hci : body.cell_id with
  | none =>
      exact ⟨"cell_id", by simp [missingField, hci],
        by simp [receive_data, hdev, hop, hsp, hnt, hci]⟩
  | some v5 =>
  cases hts : body.timestamp with
  | none =>
      exact ⟨"timestamp", by simp [missingField, hts],
        by simp [receive_data, hdev, hop, hsp, hnt, hci, hts]⟩
  | some v6 =>
      exfalso
      rcases h with h2 | h2 | h2 | h2 | h2 | h2 <;> simp_all

/-- The scenario body of the spec: ingestion request missing `cell_id`. -/
def bodyNoCell : ReqBody :=
  ⟨some "d1", some "A", some (-80), some "LTE", none,
    some (.valid ⟨1, 1, 2024, 10, 0, false⟩), none, none⟩

theorem ingestion_all_or_nothing_witness :
    (bodyNoCell.device_id = none ∨ bodyNoCell.operator = none ∨
        bodyNoCell.signal_power = none ∨ bodyNoCell.network_type = none ∨
        bodyNoCell.cell_id = none ∨ bodyNoCell.timestamp = none) ∧
      ∃ k, missingField bodyNoCell k = true ∧
        receive_data (fun _ => 0) ⟨[], []⟩ bodyNoCell "10.0.0.7" 0 =
          ((.error (missingMsg k), 400), ⟨[], []⟩) := by
  refine ⟨?_, ?_⟩
  · right; right; right; right; left; rfl
  · exact ingestion_all_or_nothing (fun _ => 0) ⟨[], []⟩ bodyNoCell "10.0.0.7" 0
      (by right; right; right; right; left; rfl)

end NetworkAnalyzer
